import Mathlib

/-!
Shallow embedding of `src/drive_sync.py`, the one-way Drive sync daemon.

Modelling conventions:
* The remote store is a list of `DriveObject`s (store-defined order = list
  order) plus a fresh-id counter; the configured remote root folder id
  `DRIVE_FOLDER_ID` is the number 0 and freshly created objects receive ids
  from `nextId`.
* Every remote call (`service.files().list/create/update(...).execute()`) is
  recorded in the `calls` trace; a failure schedule `sched` injects
  `HttpError`s: each remote call pops one flag, and a `true` flag makes that
  call raise. An empty schedule means no remote failure.
* The local filesystem is a list of `(path, content)` pairs whose paths are
  relative to `MOUNT_DIR` (for a local absolute path `MOUNT_DIR ++ "/" ++ p`,
  `os.path.relpath(local_path, MOUNT_DIR)` is exactly `p`, so the walk and
  the sync record are phrased directly in these relative paths).
* `print` output is accumulated in the `log` field.
* Python string operations `strip("/")`, `split("/")`, `os.path.dirname`,
  `os.path.basename` are embedded as structural functions over `List Char`
  so that concrete runs reduce inside the kernel.
-/

/-- Errors a step of the daemon can raise: `httpError` models
`googleapiclient.errors.HttpError` (remote failure), `localIOError` models an
`OSError` raised when opening a vanished/unreadable local file. -/
inductive PyErr where
  | httpError (msg : String)
  | localIOError (path : String)
deriving DecidableEq, Repr

/-- One remote API call, as recorded in the call trace. -/
inductive RemoteCall where
  | listFolders (parent : Nat) (name : String)
  | createFolder (parent : Nat) (name : String)
  | listFiles (parent : Nat) (name : String)
  | createFile (parent : Nat) (name : String)
  | updateFile (fileId : Nat)
deriving DecidableEq, Repr

/-- A remote object: folder or file.  `content` is the uploaded data of a
file object (folders keep it empty). -/
structure DriveObject where
  id : Nat
  name : String
  parent : Nat
  isFolder : Bool
  trashed : Bool
  content : String
deriving DecidableEq, Repr

/-- The world state threaded through the embedded functions: local files,
remote objects, fresh-id counter, failure schedule, remote-call trace and
printed log. -/
structure St where
  fs : List (String × String)
  objects : List DriveObject
  nextId : Nat
  sched : List Bool
  calls : List RemoteCall
  log : List String
deriving DecidableEq, Repr

/-- The configured remote root folder id (`DRIVE_FOLDER_ID` in the source),
rendered as the numeric id 0. -/
def DRIVE_FOLDER_ID : Nat := 0

/-- Record one remote call in the trace. -/
def recordCall (c : RemoteCall) (s : St) : St :=
  { s with calls := s.calls ++ [c] }

/-- Pop the next failure flag from the schedule (no flag left = success). -/
def popFail (s : St) : Bool × St :=
  match s.sched with
  | [] => (false, s)
  | b :: rest => (b, { s with sched := rest })

/-- Python `str.split("/")` on the character list (structural, so it reduces
in the kernel). -/
def splitSlashAux : List Char → List Char → List String
  | [], acc => [String.mk acc.reverse]
  | c :: rest, acc =>
    if c = '/' then String.mk acc.reverse :: splitSlashAux rest []
    else splitSlashAux rest (c :: acc)

/-- Python `str.split("/")`. -/
def splitSlash (s : String) : List String :=
  splitSlashAux s.data []

/-- Python `str.strip("/")`: drop leading and trailing slashes. -/
def stripSlashes (s : String) : String :=
  String.mk (((s.data.dropWhile (fun c => c = '/')).reverse.dropWhile
    (fun c => c = '/')).reverse)

/-- Python `os.path.dirname` for the slash-separated relative paths this
program builds (no trailing slash). -/
def pyDirname (p : String) : String :=
  String.intercalate "/" (splitSlash p).dropLast

/-- Python `os.path.basename` for the same paths. -/
def pyBasename (p : String) : String :=
  (splitSlash p).getLastD ""

/-- Boolean string-starts-with over the char lists (kernel-reducible). -/
def listStarts : List Char → List Char → Bool
  | [], _ => true
  | _ :: _, [] => false
  | a :: as, b :: bs => a == b && listStarts as bs

/-- `strStarts pat s` holds when `s` starts with `pat`. -/
def strStarts (pat s : String) : Bool :=
  listStarts pat.data s.data

/-- The query filter of `find_child_folder`: same parent, exact name, folder
mime type, not trashed. -/
def goodFolder (parentId : Nat) (folderName : String) (o : DriveObject) : Bool :=
  o.parent == parentId && o.name == folderName && o.isFolder && !o.trashed

/-- `files[0]["id"] if files else None` over the folder query results. -/
def firstFolder (objs : List DriveObject) (parentId : Nat)
    (folderName : String) : Option Nat :=
  ((objs.filter (goodFolder parentId folderName)).head?).map (fun o => o.id)

/-- Embeds `find_child_folder(service, parent_id, folder_name)`: one `list`
call; returns the first match in store order, or `none` when there is no
match.  Nothing is printed. -/
def find_child_folder (s : St) (parent_id : Nat) (folder_name : String) :
    Except PyErr (Option Nat) × St :=
  let s := recordCall (.listFolders parent_id folder_name) s
  let (f, s) := popFail s
  if f then (.error (.httpError "list"), s)
  else (.ok (firstFolder s.objects parent_id folder_name), s)

/-- Embeds `create_folder(service, parent_id, folder_name)`: one `create`
call; appends a fresh folder object and returns its id. -/
def create_folder (s : St) (parent_id : Nat) (folder_name : String) :
    Except PyErr Nat × St :=
  let s := recordCall (.createFolder parent_id folder_name) s
  let (f, s) := popFail s
  if f then (.error (.httpError "create folder"), s)
  else (.ok s.nextId,
    { s with
      objects := s.objects ++ [⟨s.nextId, folder_name, parent_id, true, false, ""⟩],
      nextId := s.nextId + 1 })

/-- The `for p in parts` loop of `ensure_drive_path`: look the segment up
under the previously resolved parent and create it only when absent. -/
def ensureGo : List String → Nat → St → Except PyErr Nat × St
  | [], parent, s => (.ok parent, s)
  | p :: rest, parent, s =>
    match find_child_folder s parent p with
    | (.error e, s) => (.error e, s)
    | (.ok (some fid), s) => ensureGo rest fid s
    | (.ok none, s) =>
      match create_folder s parent p with
      | (.error e, s) => (.error e, s)
      | (.ok fid, s) => ensureGo rest fid s

/-- Embeds `ensure_drive_path(service, rel_dir)`. -/
def ensure_drive_path (s : St) (rel_dir : String) : Except PyErr Nat × St :=
  if rel_dir = "" ∨ rel_dir = "." then (.ok DRIVE_FOLDER_ID, s)
  else ensureGo (splitSlash (stripSlashes rel_dir)) DRIVE_FOLDER_ID s

/-- The query filter of `find_drive_file`: same parent, exact name, not
trashed — note the source query has no mime-type clause, so folders match
too, exactly as in the code. -/
def goodFile (parentId : Nat) (filename : String) (o : DriveObject) : Bool :=
  o.parent == parentId && o.name == filename && !o.trashed

/-- Embeds `find_drive_file(service, drive_parent_id, filename)`: one `list`
call; first match in store order or `none`. -/
def find_drive_file (s : St) (drive_parent_id : Nat) (filename : String) :
    Except PyErr (Option DriveObject) × St :=
  let s := recordCall (.listFiles drive_parent_id filename) s
  let (f, s) := popFail s
  if f then (.error (.httpError "list files"), s)
  else (.ok ((s.objects.filter (goodFile drive_parent_id filename)).head?), s)

/-- Embeds `service.files().create(body=meta, media_body=media).execute()`:
one `create` call appending a fresh file object holding the uploaded
content. -/
def drive_create_file (s : St) (parent : Nat) (name : String)
    (content : String) : Except PyErr Nat × St :=
  let s := recordCall (.createFile parent name) s
  let (f, s) := popFail s
  if f then (.error (.httpError "create file"), s)
  else (.ok s.nextId,
    { s with
      objects := s.objects ++ [⟨s.nextId, name, parent, false, false, content⟩],
      nextId := s.nextId + 1 })

/-- Embeds `service.files().update(fileId=..., media_body=media).execute()`:
one `update` call replacing the content of the object with that id, keeping
its id, name and parent. -/
def drive_update_file (s : St) (fileId : Nat) (content : String) :
    Except PyErr Unit × St :=
  let s := recordCall (.updateFile fileId) s
  let (f, s) := popFail s
  if f then (.error (.httpError "update file"), s)
  else (.ok (),
    { s with objects := s.objects.map (fun o =>
        if o.id == fileId then { o with content := content } else o) })

/-- Look a path up in the local filesystem. -/
def lookupFs (fs : List (String × String)) (p : String) : Option String :=
  ((fs.filter (fun e => e.1 == p)).head?).map (fun e => e.2)

/-- Embeds `MediaFileUpload(local, resumable=True)`: the constructor opens
the local file, so it raises an `OSError` (here `localIOError`) when the
file is gone, and otherwise captures its content.  No remote call is made. -/
def mediaFileUpload (s : St) (local_path : String) : Except PyErr String × St :=
  match lookupFs s.fs local_path with
  | some c => (.ok c, s)
  | none => (.error (.localIOError local_path), s)

/-- Outcome of reconciling one candidate file, read off from the log line
the corresponding branch of `upload_or_update` prints
(`[UPLOAD]`, `[UPDATE]`, `[ERROR]`) or from the skip `continue`. -/
inductive SyncResult where
  | Skipped
  | Uploaded
  | Updated
  | Failed (reason : String)
deriving DecidableEq, Repr

/-- The body of the `try:` block of `upload_or_update`. -/
def upload_attempt (s : St) (local_path : String) (parent : Nat)
    (name : String) : Except PyErr SyncResult × St :=
  match mediaFileUpload s local_path with
  | (.error e, s) => (.error e, s)
  | (.ok content, s) =>
    match find_drive_file s parent name with
    | (.error e, s) => (.error e, s)
    | (.ok (some existing), s) =>
      match drive_update_file s existing.id content with
      | (.error e, s) => (.error e, s)
      | (.ok _, s) => (.ok .Updated, { s with log := s.log ++ ["[UPDATE] " ++ name] })
    | (.ok none, s) =>
      match drive_create_file s parent name content with
      | (.error e, s) => (.error e, s)
      | (.ok _, s) => (.ok .Uploaded, { s with log := s.log ++ ["[UPLOAD] " ++ name] })

/-- Embeds `upload_or_update(service, local, parent, name)`: the
`except HttpError` clause catches exactly the remote errors, printing an
`[ERROR]` line; a local I/O error from `MediaFileUpload` is not caught and
propagates. -/
def upload_or_update (s : St) (local_path : String) (parent : Nat)
    (name : String) : Except PyErr SyncResult × St :=
  match upload_attempt s local_path parent name with
  | (.ok r, s) => (.ok r, s)
  | (.error (.httpError m), s) =>
    (.ok (.Failed m),
      { s with log := s.log ++ ["[ERROR] " ++ local_path ++ ": " ++ m] })
  | (.error (.localIOError m), s) => (.error (.localIOError m), s)

/-- Membership test plus `set.add` of a Python `set`, on a duplicate-free
list representation. -/
def setAdd (l : List String) (p : String) : List String :=
  if p ∈ l then l else l ++ [p]

/-- The body of the inner `for fname in files:` loop of `scan_and_sync` for
one candidate `rel_path`: skip if already recorded, otherwise resolve the
parent folder, upload or update, and add the path to the session record
unconditionally afterwards.  Errors escaping the body propagate. -/
def reconcile (s : St) (uploaded : List String) (rel_path : String) :
    Except PyErr (SyncResult × St × List String) :=
  if rel_path ∈ uploaded then .ok (.Skipped, s, uploaded)
  else
    match ensure_drive_path s (pyDirname rel_path) with
    | (.error e, _) => .error e
    | (.ok drive_parent, s) =>
      match upload_or_update s rel_path drive_parent (pyBasename rel_path) with
      | (.error e, _) => .error e
      | (.ok r, s) => .ok (r, s, setAdd uploaded rel_path)

/-- Run `reconcile` over the walked candidates in order. -/
def syncList (s : St) (uploaded : List String) :
    List String → Except PyErr (St × List String)
  | [] => .ok (s, uploaded)
  | p :: rest =>
    match reconcile s uploaded p with
    | .error e => .error e
    | .ok (_, s', uploaded') => syncList s' uploaded' rest

/-- The candidates produced by `os.walk(notes_dir)` with
`os.path.relpath(local_path, MOUNT_DIR)` applied: exactly the local files
under `notes/`, in filesystem-defined (here: list) order. -/
def notesWalk (fs : List (String × String)) : List String :=
  (fs.map (fun e => e.1)).filter (fun p => strStarts "notes/" p)

/-- `os.path.exists(notes_dir)`: the notes directory is present exactly when
some local file lives under it (the model has no empty directories). -/
def notesExists (fs : List (String × String)) : Bool :=
  (fs.map (fun e => e.1)).any (fun p => strStarts "notes/" p)

/-- Embeds `scan_and_sync(service, uploaded_set)`. -/
def scan_and_sync (s : St) (uploaded : List String) :
    Except PyErr (St × List String) :=
  if notesExists s.fs then syncList s uploaded (notesWalk s.fs)
  else .ok (s, uploaded)

/-- The `while True:` loop of `main`, bounded to `n` cycles: only
`KeyboardInterrupt` is caught there, so any `PyErr` escaping
`scan_and_sync` terminates the daemon with that error. -/
def daemon (s : St) (uploaded : List String) : Nat → Except PyErr (St × List String)
  | 0 => .ok (s, uploaded)
  | n + 1 =>
    match scan_and_sync s uploaded with
    | .error e => .error e
    | .ok (s', uploaded') => daemon s' uploaded' n

/-- `main` starts the session with an empty sync record (`uploaded = set()`). -/
def main_run (s : St) (n : Nat) : Except PyErr (St × List String) :=
  daemon s [] n

example : splitSlash "a/b" = ["a", "b"] := by decide
example : splitSlash "" = [""] := by decide
example : splitSlash "a//b" = ["a", "", "b"] := by decide
example : stripSlashes "/a/b/" = "a/b" := by decide
example : pyDirname "notes/sub/data.txt" = "notes/sub" := by decide
example : pyDirname "a.txt" = "" := by decide
example : pyBasename "notes/sub/data.txt" = "data.txt" := by decide
example : strStarts "notes/" "notes/report.txt" = true := by decide
example : strStarts "notes/" "nope.txt" = false := by decide

/-- Result of the pure specification-side resolver: final parent id, remote
objects, fresh-id counter and the remote calls made, in order. -/
structure ResolveOut where
  pid : Nat
  objs : List DriveObject
  nid : Nat
  trace : List RemoteCall
deriving DecidableEq, Repr

/-- Modelled from the spec (section 4.2): the resolver "splits on the
directory separator into ordered segments and, for each segment in turn,
looks up or creates the corresponding remote folder under the previously
resolved parent, producing the final parent id", creating a folder only when
the lookup found none.  This pure top-down fold is the specification side of
the refinement proved for the folder-mirroring claim. -/
def resolveSpec : List String → Nat → List DriveObject → Nat → ResolveOut
  | [], parent, objs, nid => ⟨parent, objs, nid, []⟩
  | p :: rest, parent, objs, nid =>
    match firstFolder objs parent p with
    | some fid =>
      let r := resolveSpec rest fid objs nid
      ⟨r.pid, r.objs, r.nid, .listFolders parent p :: r.trace⟩
    | none =>
      let r := resolveSpec rest nid
        (objs ++ [⟨nid, p, parent, true, false, ""⟩]) (nid + 1)
      ⟨r.pid, r.objs, r.nid,
       .listFolders parent p :: .createFolder parent p :: r.trace⟩

/-- Recognizes the read-only lookup calls among remote calls. -/
def RemoteCall.isList : RemoteCall → Bool
  | .listFolders _ _ => true
  | _ => false

/-- A session state with one local file under notes and the fourth remote
call scheduled to fail (the `createFile` of the upload step). -/
def stC1 : St :=
  ⟨[("notes/a.txt", "x")], [], 1, [false, false, false, true], [], []⟩

/-- The state `reconcile stC1 [] "notes/a.txt"` ends in. -/
def stC1post : St :=
  ⟨[("notes/a.txt", "x")], [⟨1, "notes", 0, true, false, ""⟩], 2, [],
   [.listFolders 0 "notes", .createFolder 0 "notes",
    .listFiles 1 "a.txt", .createFile 1 "a.txt"],
   ["[ERROR] notes/a.txt: create file"]⟩

/-- A session state with one local file under notes and the very first remote
call (the folder lookup of the path resolver) scheduled to fail. -/
def stC2 : St := ⟨[("notes/a.txt", "x")], [], 1, [true], [], []⟩

/-- A failure-free session over an empty local tree and empty remote store. -/
def stC3 : St := ⟨[], [], 1, [], [], []⟩

/-- The state reached after resolving "a" once from `stC3`. -/
def stC3post : St :=
  ⟨[], [⟨1, "a", 0, true, false, ""⟩], 2, [],
   [.listFolders 0 "a", .createFolder 0 "a"], []⟩

/-- A failure-free session holding one readable local file. -/
def stC5 : St := ⟨[("doc.txt", "d")], [], 1, [], [], []⟩

/-- A failure-free session holding the local file `a/b/c.txt`. -/
def stC6 : St := ⟨[("a/b/c.txt", "data")], [], 1, [], [], []⟩

/-- A remote store already holding two non-trashed folders named "a" under
the root — the ambiguous situation of the duplicate-name claim. -/
def stC8 : St :=
  ⟨[], [⟨1, "a", 0, true, false, ""⟩, ⟨2, "a", 0, true, false, ""⟩],
   3, [], [], []⟩

/-- The spec's scenario state: local `notes/report.txt` and
`notes/sub/data.txt`, remote root empty, no failures. -/
def stC9 : St :=
  ⟨[("notes/report.txt", "r50"), ("notes/sub/data.txt", "d10")],
   [], 1, [], [], []⟩

/-- A session state whose local tree has no file under the notes directory. -/
def stC10 : St := ⟨[("other/x.txt", "y")], [], 1, [], [], []⟩

lemma firstFolder_append_some (objs : List DriveObject) (parentId : Nat)
    (name : String) (fid : Nat) (Δ : List DriveObject)
    (h : firstFolder objs parentId name = some fid) :
    firstFolder (objs ++ Δ) parentId name = some fid := by
  unfold firstFolder at h ⊢
  cases hv : objs.filter (goodFolder parentId name) with
  | nil => rw [hv] at h; simp at h
  | cons a t =>
    rw [hv] at h
    simp at h
    simp [List.filter_append, hv, h]

lemma firstFolder_none_filter (objs : List DriveObject) (parentId : Nat)
    (name : String) (h : firstFolder objs parentId name = none) :
    objs.filter (goodFolder parentId name) = [] := by
  unfold firstFolder at h
  cases hv : objs.filter (goodFolder parentId name) with
  | nil => rfl
  | cons a t => rw [hv] at h; simp at h

lemma firstFolder_after_create (objs : List DriveObject) (parentId : Nat)
    (name : String) (Δ : List DriveObject) (o : DriveObject)
    (h : firstFolder objs parentId name = none)
    (ho : goodFolder parentId name o = true) :
    firstFolder ((objs ++ [o]) ++ Δ) parentId name = some o.id := by
  have h0 := firstFolder_none_filter objs parentId name h
  unfold firstFolder
  simp [List.filter_append, h0, ho]

lemma goodFolder_created (parentId : Nat) (name : String) (i : Nat) :
    goodFolder parentId name ⟨i, name, parentId, true, false, ""⟩ = true := by
  simp [goodFolder]

lemma resolveSpec_objs_extend (parts : List String) : ∀ (parent : Nat)
    (objs : List DriveObject) (nid : Nat),
    ∃ Δ, (resolveSpec parts parent objs nid).objs = objs ++ Δ := by
  induction parts with
  | nil =>
    intro parent objs nid
    exact ⟨[], by simp [resolveSpec]⟩
  | cons p rest ih =>
    intro parent objs nid
    cases hf : firstFolder objs parent p with
    | some fid =>
      obtain ⟨Δ, hΔ⟩ := ih fid objs nid
      exact ⟨Δ, by simp [resolveSpec, hf, hΔ]⟩
    | none =>
      obtain ⟨Δ, hΔ⟩ := ih nid (objs ++ [⟨nid, p, parent, true, false, ""⟩]) (nid + 1)
      refine ⟨⟨nid, p, parent, true, false, ""⟩ :: Δ, ?_⟩
      simp [resolveSpec, hf, hΔ]

lemma resolveSpec_idem (parts : List String) : ∀ (parent : Nat)
    (objs : List DriveObject) (nid : Nat),
    resolveSpec parts parent (resolveSpec parts parent objs nid).objs
        (resolveSpec parts parent objs nid).nid =
      ⟨(resolveSpec parts parent objs nid).pid,
       (resolveSpec parts parent objs nid).objs,
       (resolveSpec parts parent objs nid).nid,
       (resolveSpec parts parent objs nid).trace.filter RemoteCall.isList⟩ := by
  induction parts with
  | nil =>
    intro parent objs nid
    simp [resolveSpec]
  | cons p rest ih =>
    intro parent objs nid
    cases hf : firstFolder objs parent p with
    | some fid =>
      obtain ⟨Δ, hΔ⟩ := resolveSpec_objs_extend rest fid objs nid
      have hf2 : firstFolder (resolveSpec rest fid objs nid).objs parent p = some fid := by
        rw [hΔ]; exact firstFolder_append_some objs parent p fid Δ hf
      have := ih fid objs nid
      simp only [resolveSpec, hf]
      simp [resolveSpec, hf2, this, List.filter_cons, RemoteCall.isList]
    | none =>
      obtain ⟨Δ, hΔ⟩ := resolveSpec_objs_extend rest nid
        (objs ++ [⟨nid, p, parent, true, false, ""⟩]) (nid + 1)
      have hf2 : firstFolder
          (resolveSpec rest nid (objs ++ [⟨nid, p, parent, true, false, ""⟩]) (nid + 1)).objs
          parent p = some nid := by
        rw [hΔ]
        exact firstFolder_after_create objs parent p Δ _ hf (goodFolder_created parent p nid)
      have := ih nid (objs ++ [⟨nid, p, parent, true, false, ""⟩]) (nid + 1)
      simp only [resolveSpec, hf]
      simp [resolveSpec, hf2, this, List.filter_cons, RemoteCall.isList]

lemma ensureGo_spec (parts : List String) : ∀ (parent : Nat) (s : St),
    s.sched = [] →
    ensureGo parts parent s =
      (.ok (resolveSpec parts parent s.objects s.nextId).pid,
       { s with
         objects := (resolveSpec parts parent s.objects s.nextId).objs,
         nextId := (resolveSpec parts parent s.objects s.nextId).nid,
         calls := s.calls ++ (resolveSpec parts parent s.objects s.nextId).trace }) := by
  induction parts with
  | nil =>
    intro parent s h
    simp [ensureGo, resolveSpec]
  | cons p rest ih =>
    intro parent s h
    have hcall : find_child_folder s parent p =
        (.ok (firstFolder s.objects parent p),
         recordCall (.listFolders parent p) s) := by
      simp [find_child_folder, popFail, recordCall, h]
    cases hf : firstFolder s.objects parent p with
    | some fid =>
      have step : ensureGo (p :: rest) parent s =
          ensureGo rest fid (recordCall (.listFolders parent p) s) := by
        rw [ensureGo, hcall, hf]
      rw [step, ih fid (recordCall (.listFolders parent p) s) (by simp [recordCall, h])]
      simp [recordCall, resolveSpec, hf, List.append_assoc]
    | none =>
      have hcr : create_folder (recordCall (.listFolders parent p) s) parent p =
          (.ok s.nextId,
           { s with
             objects := s.objects ++ [⟨s.nextId, p, parent, true, false, ""⟩],
             nextId := s.nextId + 1,
             calls := s.calls ++ [.listFolders parent p, .createFolder parent p] }) := by
        simp [create_folder, popFail, recordCall, h]
      have step : ensureGo (p :: rest) parent s =
          ensureGo rest s.nextId
            { s with
              objects := s.objects ++ [⟨s.nextId, p, parent, true, false, ""⟩],
              nextId := s.nextId + 1,
              calls := s.calls ++ [.listFolders parent p, .createFolder parent p] } := by
        rw [ensureGo, hcall, hf]
        dsimp only
        rw [hcr]
      rw [step, ih _ _ (by simp [h])]
      simp [resolveSpec, hf, List.append_assoc]

lemma reconcile_mem (s : St) (uploaded : List String) (p : String)
    (h : p ∈ uploaded) :
    reconcile s uploaded p = .ok (.Skipped, s, uploaded) := by
  simp [reconcile, h]

lemma reconcile_record_cases (s : St) (uploaded : List String) (p : String)
    (r : SyncResult) (s₁ : St) (up₁ : List String)
    (h : reconcile s uploaded p = .ok (r, s₁, up₁)) :
    (p ∈ uploaded ∧ r = .Skipped ∧ s₁ = s ∧ up₁ = uploaded) ∨
    (p ∉ uploaded ∧ up₁ = uploaded ++ [p]) := by
  by_cases hm : p ∈ uploaded
  · left
    rw [reconcile_mem s uploaded p hm] at h
    simp only [Except.ok.injEq, Prod.mk.injEq] at h
    exact ⟨hm, h.1.symm, h.2.1.symm, h.2.2.symm⟩
  · right
    refine ⟨hm, ?_⟩
    unfold reconcile at h
    rw [if_neg hm] at h
    rcases he : ensure_drive_path s (pyDirname p) with ⟨er, s'⟩
    rw [he] at h
    cases er with
    | error e => simp at h
    | ok dp =>
      dsimp only at h
      rcases hu : upload_or_update s' p dp (pyBasename p) with ⟨ur, s''⟩
      rw [hu] at h
      cases ur with
      | error e => simp at h
      | ok r' =>
        simp only [Except.ok.injEq, Prod.mk.injEq] at h
        rw [← h.2.2, setAdd, if_neg hm]

/-- C7: resolving the root relative directory ("" or ".") returns the
configured remote root folder id directly and leaves the whole state — in
particular the remote store and the call trace — untouched: no remote
lookup and no folder creation happen. -/
theorem C7_root_resolution (s : St) :
    ensure_drive_path s "" = (.ok DRIVE_FOLDER_ID, s) ∧
    ensure_drive_path s "." = (.ok DRIVE_FOLDER_ID, s) := by
  constructor <;> simp [ensure_drive_path]

/-- C10: when no local file lives under the notes directory (the scanned
subdirectory is absent at the start of the cycle), the scan-and-sync pass
returns immediately with the state and the session record unchanged — in
particular it makes no remote call. -/
theorem C10_missing_notes_noop (s : St) (uploaded : List String)
    (h : notesExists s.fs = false) :
    scan_and_sync s uploaded = .ok (s, uploaded) := by
  simp [scan_and_sync, h]

/-- C10 witness: a concrete local tree without the notes directory. -/
theorem C10_missing_notes_noop_witness :
    notesExists stC10.fs = false ∧ scan_and_sync stC10 [] = .ok (stC10, []) :=
  ⟨rfl, C10_missing_notes_noop stC10 [] rfl⟩

/-- C4: the session sync record starts empty at daemon start; a path already
in the record is reconciled to `Skipped` with the state — hence the remote
call trace — unchanged; a successful reconcile never shrinks the record; and
a path whose reconcile returned `Uploaded` or `Updated` is in the record
afterwards, so every subsequent reconcile of it in the session returns
`Skipped` without any remote call: no path is uploaded twice in a session. -/
theorem C4_no_duplicate_upload :
    (∀ (s : St) (n : Nat), main_run s n = daemon s [] n) ∧
    (∀ (s : St) (uploaded : List String) (p : String), p ∈ uploaded →
      reconcile s uploaded p = .ok (.Skipped, s, uploaded)) ∧
    (∀ (s : St) (uploaded : List String) (p : String) (r : SyncResult)
        (s₁ : St) (up₁ : List String),
      reconcile s uploaded p = .ok (r, s₁, up₁) →
      uploaded ⊆ up₁ ∧
      ((r = .Uploaded ∨ r = .Updated) →
        p ∈ up₁ ∧ ∀ s₂ : St, reconcile s₂ up₁ p = .ok (.Skipped, s₂, up₁))) := by
  refine ⟨fun s n => rfl, fun s uploaded p h => reconcile_mem s uploaded p h, ?_⟩
  intro s uploaded p r s₁ up₁ h
  rcases reconcile_record_cases s uploaded p r s₁ up₁ h with ⟨hm, _, _, hup⟩ | ⟨hm, hup⟩
  · rw [hup]
    exact ⟨fun q hq => hq, fun _ => ⟨hm, fun s₂ => reconcile_mem s₂ uploaded p hm⟩⟩
  · rw [hup]
    refine ⟨fun q hq => List.mem_append_left _ hq, fun _ => ?_⟩
    have hp : p ∈ uploaded ++ [p] :=
      List.mem_append_right _ (List.mem_singleton.mpr rfl)
    exact ⟨hp, fun s₂ => reconcile_mem s₂ (uploaded ++ [p]) p hp⟩

/-- C4 witness: a recorded path is skipped with the state unchanged. -/
theorem C4_no_duplicate_upload_witness :
    "doc.txt" ∈ ["doc.txt"] ∧
    reconcile stC5 ["doc.txt"] "doc.txt" = .ok (.Skipped, stC5, ["doc.txt"]) :=
  ⟨by decide, C4_no_duplicate_upload.2.1 stC5 ["doc.txt"] "doc.txt" (by decide)⟩

/-- C1 counterexample: with the remote `createFile` call of the upload step
scheduled to fail, reconciling `notes/a.txt` returns `Failed` (an `[ERROR]`
line is printed), yet the path IS added to the session sync record — the
claim that a `Failed` path is not recorded is false on the code. -/
theorem C1_counterexample :
    reconcile stC1 [] "notes/a.txt" =
      .ok (.Failed "create file", stC1post, ["notes/a.txt"]) := by
  rfl

/-- C1 amended: whenever the reconcile step for `p` completes without an
uncaught exception — including the case where the remote upload failed with
an `HttpError` and the result is `Failed(reason)` — the path `p` ends up in
the session sync record, and every subsequent reconcile of `p` in the same
session returns `Skipped`: a `Failed` path is NOT retried within the
session; it is only re-attempted after a daemon restart. -/
theorem C1_failed_path_recorded (s : St) (uploaded : List String) (p : String)
    (r : SyncResult) (s₁ : St) (up₁ : List String)
    (h : reconcile s uploaded p = .ok (r, s₁, up₁)) :
    p ∈ up₁ ∧ ∀ s₂ : St, reconcile s₂ up₁ p = .ok (.Skipped, s₂, up₁) := by
  rcases reconcile_record_cases s uploaded p r s₁ up₁ h with ⟨hm, _, _, hup⟩ | ⟨hm, hup⟩
  · rw [hup]
    exact ⟨hm, fun s₂ => reconcile_mem s₂ uploaded p hm⟩
  · rw [hup]
    have hp : p ∈ uploaded ++ [p] :=
      List.mem_append_right _ (List.mem_singleton.mpr rfl)
    exact ⟨hp, fun s₂ => reconcile_mem s₂ (uploaded ++ [p]) p hp⟩

/-- C1 witness: the failed path of the counterexample run is recorded and a
second reconcile of it skips. -/
theorem C1_failed_path_recorded_witness :
    "notes/a.txt" ∈ ["notes/a.txt"] ∧
    reconcile stC1post ["notes/a.txt"] "notes/a.txt" =
      .ok (.Skipped, stC1post, ["notes/a.txt"]) :=
  ⟨(C1_failed_path_recorded stC1 [] "notes/a.txt" (.Failed "create file")
      stC1post ["notes/a.txt"] rfl).1,
   (C1_failed_path_recorded stC1 [] "notes/a.txt" (.Failed "create file")
      stC1post ["notes/a.txt"] rfl).2 stC1post⟩

/-- C2 counterexample: a remote error during path resolution of the single
candidate `notes/a.txt` — raised outside the `try` block of
`upload_or_update` — aborts the whole scan pass and terminates the daemon
loop with that error: an error raised while reconciling one file does halt
the cycle and the daemon. -/
theorem C2_counterexample :
    scan_and_sync stC2 [] = .error (.httpError "list") ∧
    daemon stC2 [] 5 = .error (.httpError "list") := by
  exact ⟨rfl, rfl⟩

/-- C2 amended: only the `HttpError`s raised inside `upload_or_update`'s try
block are contained — any error `upload_or_update` itself propagates is a
local I/O error, never a remote one; and any error that escapes a reconcile
step (a remote error during folder resolution, or a local I/O error opening
a vanished file, which `except HttpError` does not catch) propagates out of
`scan_and_sync` and terminates the daemon loop with that error. -/
theorem C2_error_containment :
    (∀ (s : St) (local_path : String) (parent : Nat) (name : String) (e : PyErr),
      (upload_or_update s local_path parent name).1 = .error e →
      ∃ q, e = .localIOError q) ∧
    (∀ (s : St) (uploaded : List String) (e : PyErr) (n : Nat),
      scan_and_sync s uploaded = .error e →
      daemon s uploaded (n + 1) = .error e) := by
  constructor
  · intro s local_path parent name e h
    unfold upload_or_update at h
    rcases hu : upload_attempt s local_path parent name with ⟨ur, s'⟩
    rw [hu] at h
    cases ur with
    | ok r => simp at h
    | error e' =>
      cases e' with
      | httpError m => simp at h
      | localIOError m =>
        dsimp only at h
        exact ⟨m, by simpa using h.symm⟩
  · intro s uploaded e n h
    simp [daemon, h]

/-- C2 witness: the containment theorem applied to the concrete failing
cycle of the counterexample state. -/
theorem C2_error_containment_witness :
    scan_and_sync stC2 [] = .error (.httpError "list") ∧
    daemon stC2 [] 1 = .error (.httpError "list") :=
  ⟨rfl, C2_error_containment.2 stC2 [] (.httpError "list") 0 rfl⟩

/-- C3 counterexample: resolving "a" twice from an empty remote store yields
the same folder id both times and creates the folder only once, but the
second resolution issues a fresh `listFolders` remote lookup — the resolver
keeps no session cache, so the claimed cache hit on the second call does not
happen. -/
theorem C3_counterexample :
    ensure_drive_path stC3 "a" = (.ok 1, stC3post) ∧
    ensure_drive_path stC3post "a" =
      (.ok 1, { stC3post with
        calls := [.listFolders 0 "a", .createFolder 0 "a",
          .listFolders 0 "a"] }) := by
  exact ⟨rfl, rfl⟩

/-- C3 amended: within a failure-free session, resolving the same relative
directory a second time yields the same remote folder id and changes nothing
in the remote store — so at most one folder-creation call per segment
happens across both resolutions — but there is no cache: the extra remote
calls of the second resolution are its re-issued folder lookups. -/
theorem C3_resolve_idempotent_uncached (s : St) (d : String) (pid : Nat)
    (s₁ : St) (h : s.sched = [])
    (hrun : ensure_drive_path s d = (.ok pid, s₁)) :
    ∃ δ, ensure_drive_path s₁ d = (.ok pid, { s₁ with calls := s₁.calls ++ δ }) ∧
      ∀ c ∈ δ, c.isList = true := by
  by_cases hroot : d = "" ∨ d = "."
  · rw [ensure_drive_path, if_pos hroot] at hrun
    simp only [Prod.mk.injEq, Except.ok.injEq] at hrun
    obtain ⟨h1, h2⟩ := hrun
    refine ⟨[], ?_, by simp⟩
    rw [ensure_drive_path, if_pos hroot, h1]
    simp
  · rw [ensure_drive_path, if_neg hroot, ensureGo_spec _ _ _ h] at hrun
    simp only [Prod.mk.injEq, Except.ok.injEq] at hrun
    obtain ⟨hpid, hs⟩ := hrun
    have hobj : s₁.objects =
        (resolveSpec (splitSlash (stripSlashes d)) DRIVE_FOLDER_ID
          s.objects s.nextId).objs := by rw [← hs]
    have hnid : s₁.nextId =
        (resolveSpec (splitSlash (stripSlashes d)) DRIVE_FOLDER_ID
          s.objects s.nextId).nid := by rw [← hs]
    have hsched : s₁.sched = [] := by rw [← hs]; exact h
    refine ⟨(resolveSpec (splitSlash (stripSlashes d)) DRIVE_FOLDER_ID
        s.objects s.nextId).trace.filter RemoteCall.isList, ?_, ?_⟩
    · rw [ensure_drive_path, if_neg hroot, ensureGo_spec _ _ _ hsched, hobj, hnid,
        resolveSpec_idem]
      rw [hpid, ← hobj, ← hnid]
    · intro c hc
      exact (List.mem_filter.mp hc).2

/-- C3 witness: the amended theorem applied to the concrete first resolution
of the counterexample. -/
theorem C3_resolve_idempotent_uncached_witness :
    stC3.sched = [] ∧
    (∃ δ, ensure_drive_path stC3post "a" =
        (.ok 1, { stC3post with calls := stC3post.calls ++ δ }) ∧
      ∀ c ∈ δ, c.isList = true) :=
  ⟨rfl, C3_resolve_idempotent_uncached stC3 "a" 1 stC3post rfl rfl⟩

/-- C5: the create-vs-update decision consults only the (parent id, name)
lookup: when the local file is readable and no remote failure is scheduled,
an absent match leads to creating a fresh object under exactly that parent
with that name (result `Uploaded`), and a present match leads to updating
the found object's content keeping its id — the object list is rewritten
only at that id, so ids, names and parents are all preserved — with result
`Updated`; the outcome is fully determined by the match list, with no
content hash or modification time consulted. -/
theorem C5_create_vs_update (s : St) (parent : Nat) (name local_path : String)
    (content : String) (h : s.sched = [])
    (hfile : lookupFs s.fs local_path = some content) :
    upload_or_update s local_path parent name =
      (match (s.objects.filter (goodFile parent name)).head? with
       | none =>
         (.ok .Uploaded,
          { s with
            calls := s.calls ++ [.listFiles parent name, .createFile parent name],
            objects := s.objects ++ [⟨s.nextId, name, parent, false, false, content⟩],
            nextId := s.nextId + 1,
            log := s.log ++ ["[UPLOAD] " ++ name] })
       | some m =>
         (.ok .Updated,
          { s with
            calls := s.calls ++ [.listFiles parent name, .updateFile m.id],
            objects := s.objects.map (fun o =>
              if o.id == m.id then { o with content := content } else o),
            log := s.log ++ ["[UPDATE] " ++ name] })) := by
  cases hm : (s.objects.filter (goodFile parent name)).head? with
  | none =>
    simp [upload_or_update, upload_attempt, mediaFileUpload, hfile,
      find_drive_file, drive_create_file, popFail, recordCall, h, hm]
  | some m =>
    simp [upload_or_update, upload_attempt, mediaFileUpload, hfile,
      find_drive_file, drive_update_file, popFail, recordCall, h, hm]

/-- C5 witness: uploading a new file into the empty remote store. -/
theorem C5_create_vs_update_witness :
    stC5.sched = [] ∧ lookupFs stC5.fs "doc.txt" = some "d" ∧
    upload_or_update stC5 "doc.txt" 0 "doc.txt" =
      (.ok .Uploaded,
       { fs := [("doc.txt", "d")],
         objects := [⟨1, "doc.txt", 0, false, false, "d"⟩],
         nextId := 2, sched := [],
         calls := [.listFiles 0 "doc.txt", .createFile 0 "doc.txt"],
         log := ["[UPLOAD] doc.txt"] }) :=
  ⟨rfl, rfl, C5_create_vs_update stC5 0 "doc.txt" "doc.txt" "d" rfl rfl⟩

/-- C6: folder mirroring is a strictly top-down sequential walk: with no
failure scheduled, `ensure_drive_path` on a non-root directory behaves
exactly like the specification fold `resolveSpec`, which splits the path
into ordered segments and, segment by segment in order, looks the folder up
under the previously resolved parent and creates it only when the lookup
found none; and on the concrete path `a/b/c.txt` folder `a` is looked up and
created before `b`, and the file object is created under the final resolved
parent `b`. -/
theorem C6_topdown_mirroring :
    (∀ (s : St) (rel_dir : String), s.sched = [] →
      ¬(rel_dir = "" ∨ rel_dir = ".") →
      ensure_drive_path s rel_dir =
        (.ok (resolveSpec (splitSlash (stripSlashes rel_dir))
            DRIVE_FOLDER_ID s.objects s.nextId).pid,
         { s with
           objects := (resolveSpec (splitSlash (stripSlashes rel_dir))
             DRIVE_FOLDER_ID s.objects s.nextId).objs,
           nextId := (resolveSpec (splitSlash (stripSlashes rel_dir))
             DRIVE_FOLDER_ID s.objects s.nextId).nid,
           calls := s.calls ++ (resolveSpec (splitSlash (stripSlashes rel_dir))
             DRIVE_FOLDER_ID s.objects s.nextId).trace })) ∧
    reconcile stC6 [] "a/b/c.txt" =
      .ok (.Uploaded,
        { fs := [("a/b/c.txt", "data")],
          objects := [⟨1, "a", 0, true, false, ""⟩,
            ⟨2, "b", 1, true, false, ""⟩,
            ⟨3, "c.txt", 2, false, false, "data"⟩],
          nextId := 4, sched := [],
          calls := [.listFolders 0 "a", .createFolder 0 "a",
            .listFolders 1 "b", .createFolder 1 "b",
            .listFiles 2 "c.txt", .createFile 2 "c.txt"],
          log := ["[UPLOAD] c.txt"] },
        ["a/b/c.txt"]) := by
  constructor
  · intro s rel_dir h hroot
    rw [ensure_drive_path, if_neg hroot]
    exact ensureGo_spec _ _ _ h
  · rfl

/-- C6 witness: the refinement applied to the directory `a/b`. -/
theorem C6_topdown_mirroring_witness :
    stC6.sched = [] ∧
    ensure_drive_path stC6 "a/b" =
      (.ok (resolveSpec (splitSlash (stripSlashes "a/b"))
          DRIVE_FOLDER_ID stC6.objects stC6.nextId).pid,
       { stC6 with
         objects := (resolveSpec (splitSlash (stripSlashes "a/b"))
           DRIVE_FOLDER_ID stC6.objects stC6.nextId).objs,
         nextId := (resolveSpec (splitSlash (stripSlashes "a/b"))
           DRIVE_FOLDER_ID stC6.objects stC6.nextId).nid,
         calls := stC6.calls ++ (resolveSpec (splitSlash (stripSlashes "a/b"))
           DRIVE_FOLDER_ID stC6.objects stC6.nextId).trace }) :=
  ⟨rfl, C6_topdown_mirroring.1 stC6 "a/b" rfl (by decide)⟩

/-- C8 counterexample: with two non-trashed folders named "a" under the same
parent, the lookup returns the first match in store order and resolution can
proceed with it, but nothing at all is logged — the log stays empty,
contradicting the claim that the ambiguity is logged. -/
theorem C8_counterexample :
    (stC8.objects.filter (goodFolder 0 "a")).length = 2 ∧
    find_child_folder stC8 0 "a" =
      (.ok (some 1), { stC8 with calls := [.listFolders 0 "a"] }) ∧
    (find_child_folder stC8 0 "a").2.log = [] := by
  exact ⟨rfl, rfl, rfl⟩

/-- C8 amended: when the remote store holds several non-trashed objects with
the same name under one parent, the folder lookup returns the first match in
store-defined order (and reports absent on zero matches) and resolution
proceeds with that match; the anomaly is tolerated, but — unlike the claim —
no log line is emitted: the state changes only by the recorded remote call,
the log staying as it was. -/
theorem C8_first_match_silent (s : St) (parentId : Nat) (name : String)
    (h : s.sched = []) :
    find_child_folder s parentId name =
      (.ok (((s.objects.filter (goodFolder parentId name)).head?).map
          (fun o => o.id)),
       { s with calls := s.calls ++ [.listFolders parentId name] }) := by
  simp [find_child_folder, popFail, recordCall, h, firstFolder]

/-- C8 witness: the lookup over the duplicated store returns the first of
the two folders and leaves the log unchanged. -/
theorem C8_first_match_silent_witness :
    stC8.sched = [] ∧
    find_child_folder stC8 0 "a" =
      (.ok (((stC8.objects.filter (goodFolder 0 "a")).head?).map
          (fun o => o.id)),
       { stC8 with calls := stC8.calls ++ [.listFolders 0 "a"] }) :=
  ⟨rfl, C8_first_match_silent stC8 0 "a" rfl⟩

/-- C9: every path the scanner yields begins with the scanned subdirectory's
own name `notes/` (paths are taken relative to the mount root one level
above the notes directory), and the spec's scenario holds: from local files
`notes/report.txt` and `notes/sub/data.txt` and an empty remote root, one
cycle creates remote folder `notes` under the root, file `report.txt` and
folder `sub` under `notes`, file `data.txt` under `sub`, and leaves the
session record with exactly the two relative paths. -/
theorem C9_scanner_paths :
    (∀ (fs : List (String × String)) (p : String), p ∈ notesWalk fs →
      strStarts "notes/" p = true) ∧
    scan_and_sync stC9 [] =
      .ok ({ fs := [("notes/report.txt", "r50"), ("notes/sub/data.txt", "d10")],
             objects := [⟨1, "notes", 0, true, false, ""⟩,
               ⟨2, "report.txt", 1, false, false, "r50"⟩,
               ⟨3, "sub", 1, true, false, ""⟩,
               ⟨4, "data.txt", 3, false, false, "d10"⟩],
             nextId := 5, sched := [],
             calls := [.listFolders 0 "notes", .createFolder 0 "notes",
               .listFiles 1 "report.txt", .createFile 1 "report.txt",
               .listFolders 0 "notes", .listFolders 1 "sub",
               .createFolder 1 "sub", .listFiles 3 "data.txt",
               .createFile 3 "data.txt"],
             log := ["[UPLOAD] report.txt", "[UPLOAD] data.txt"] },
           ["notes/report.txt", "notes/sub/data.txt"]) := by
  constructor
  · intro fs p hp
    exact (List.mem_filter.mp hp).2
  · rfl

/-- C9 witness: a concrete yielded path starts with the notes folder name. -/
theorem C9_scanner_paths_witness :
    "notes/report.txt" ∈ notesWalk stC9.fs ∧
    strStarts "notes/" "notes/report.txt" = true :=
  ⟨by decide, C9_scanner_paths.1 stC9.fs "notes/report.txt" (by decide)⟩
